import Mathlib

set_option maxHeartbeats 1000000
set_option maxRecDepth 100000

/-! Shallow embedding of the marvin chat-to-reddit bridge bot (src/marvin.py).
    Pure string helpers mirror the Python string operations the bot uses; each
    Telegram command handler is embedded as a function from its inputs to the
    ordered list of outward calls it performs.  External collaborators
    (Telegram client, reddit client, web fetcher) are abstracted as an
    environment of oracle functions. -/

/-- Whitespace test matching Python str.strip and str.split (ASCII subset;
    the bot only ever feeds it command text typed in a chat). -/
def pyIsSpace (c : Char) : Bool :=
  c == ' ' || c == '\t' || c == '\n' || c == '\r' || c == Char.ofNat 11 || c == Char.ofNat 12

/-- Replace every non-overlapping occurrence of `old` in the character list,
    scanning left to right, as Python str.replace does for nonempty `old`
    (every use in marvin.py has a nonempty pattern).  The fuel argument keeps
    the recursion structural; a match consumes the head plus old.length - 1
    further characters, so fuel equal to the input length always suffices. -/
def pyReplaceAux (old new : List Char) : Nat → List Char → List Char
  | _, [] => []
  | 0, l => l
  | fuel + 1, c :: cs =>
    if old ≠ [] ∧ old.isPrefixOf (c :: cs) = true then
      new ++ pyReplaceAux old new fuel (cs.drop (old.length - 1))
    else
      c :: pyReplaceAux old new fuel cs

/-- Python str.replace on strings. -/
def pyReplace (s old new : String) : String :=
  String.mk (pyReplaceAux old.data new.data s.data.length s.data)

/-- Python str.strip on a character list. -/
def pyStripList (l : List Char) : List Char :=
  ((l.dropWhile pyIsSpace).reverse.dropWhile pyIsSpace).reverse

/-- Python str.strip on strings. -/
def pyStrip (s : String) : String :=
  String.mk (pyStripList s.data)

/-- Python str.split with no separator: split on whitespace runs, dropping
    empty fields. -/
def pySplitAux : List Char → List Char → List String
  | [], acc => if acc.isEmpty then [] else [String.mk acc.reverse]
  | c :: cs, acc =>
    if pyIsSpace c then
      if acc.isEmpty then pySplitAux cs []
      else String.mk acc.reverse :: pySplitAux cs []
    else pySplitAux cs (c :: acc)

/-- Python str.split with no separator. -/
def pySplit (s : String) : List String :=
  pySplitAux s.data []

/-- Digit run accepted by Python int(): decimal digits with single
    underscores allowed only between digits (ASCII digits; the bot parses
    rule numbers typed in chat commands). -/
def pyDigitsGo (acc : Nat) : List Char → Option Nat
  | [] => some acc
  | '_' :: rest =>
    match rest with
    | [] => none
    | d :: rest2 =>
      if d.isDigit then pyDigitsGo (acc * 10 + (d.toNat - 48)) rest2 else none
  | d :: rest =>
    if d.isDigit then pyDigitsGo (acc * 10 + (d.toNat - 48)) rest else none

/-- Nonempty digit run accepted by Python int() after the optional sign. -/
def pyDigits : List Char → Option Nat
  | [] => none
  | d :: rest => if d.isDigit then pyDigitsGo (d.toNat - 48) rest else none

/-- Python int(str): optional surrounding whitespace, optional sign, then a
    nonempty digit run; None models the ValueError branch of marvin.py. -/
def pyIntParse (s : String) : Option Int :=
  match pyStripList s.data with
  | '+' :: rest => (pyDigits rest).map Int.ofNat
  | '-' :: rest => (pyDigits rest).map (fun n => -(Int.ofNat n))
  | l => (pyDigits l).map Int.ofNat

/-- Characters allowed in a URL scheme by urllib.parse (letters, digits,
    plus, minus, dot). -/
def schemeChar (c : Char) : Bool :=
  c.isAlpha || c.isDigit || c == '+' || c == '-' || c == '.'

/-- Scan up to the first colon collecting scheme characters; any non-scheme
    character before the colon, a leading colon, or no colon at all means no
    scheme, exactly as urllib.parse.urlsplit decides it. -/
def urlSchemeAux : List Char → List Char → Option (List Char)
  | [], _ => none
  | ':' :: _, acc => if acc.isEmpty then none else some acc.reverse
  | c :: cs, acc => if schemeChar c then urlSchemeAux cs (c :: acc) else none

/-- Scheme of a URL as computed by urllib.parse.urlparse (lowercased; empty
    string when the URL has no scheme). -/
def urlScheme (url : String) : String :=
  match urlSchemeAux url.data [] with
  | none => ""
  | some l => String.mk (l.map Char.toLower)

/-- Substring test (used only to state properties about composed texts). -/
def listInfix (pat : List Char) : List Char → Bool
  | [] => pat.isEmpty
  | c :: cs => pat.isPrefixOf (c :: cs) || listInfix pat cs

/-- Substring test on strings. -/
def containsSub (s pat : String) : Bool :=
  listInfix pat.data s.data

/-- Python str.startswith. -/
def pyStartswith (s pre : String) : Bool :=
  pre.data.isPrefixOf s.data

namespace Marvin

/-- Membership status of a user in a Telegram chat
    (telegram.ChatMember status values). -/
inductive ChatMemberStatus where
  | administrator
  | creator
  | member
  | restricted
  | leftChat
  | kicked
deriving DecidableEq, Repr

/-- Outward call performed by a command handler or the relay, in the order
    the Python code issues them.  tgSendTagged models the in-group fallback
    of send_tg_message_reply_or_private: the string actually sent is
    tag followed by a newline and the text.  raiseTypeError marks the point
    where an unhandled Python TypeError is raised: the handler aborts there
    and nothing after it runs (the exception propagates to the
    process-level error handler). -/
inductive Action where
  | tgSend (chat_id : Int) (text : String)
  | tgSendReply (chat_id : Int) (text : String) (reply_to_id : Int)
  | tgSendUser (user_id : Int) (text : String)
  | tgSendTagged (chat_id : Int) (tag : String) (text : String)
  | tgDelete (chat_id : Int) (message_id : Int)
  | tgDeleteDelayed (chat_id : Int) (message_id : Int) (seconds : Nat)
  | redditFetch (submission_id : String)
  | redditReply (submission_id : String) (text : String)
  | redditRemove (submission_id : String)
  | redditLock (submission_id : String)
  | redditSubmitLink (title : String) (url : String)
  | redditSubmitText (title : String) (selftext : String)
  | redditDistinguish (submission_id : String)
  | fetchTitle (url : String)
  | raiseTypeError
deriving DecidableEq, Repr

/-- Result of fetching a reddit submission by id (the two attributes the
    bot reads). -/
structure SubmissionInfo where
  display_name : String
  locked : Bool
deriving DecidableEq, Repr

/-- Telegram user as the bot reads it. -/
structure TgUser where
  id : Int
  username : Option String
  first_name : String
  last_name : Option String
deriving DecidableEq, Repr

/-- Reply-target message: the fields of update.message.reply_to_message the
    bot reads.  urls lists the values of parse_entities([MessageEntity.URL])
    in message order; popitem() on that dict yields the last one. -/
structure ReplyMsg where
  message_id : Int
  urls : List String
  text_markdown : String
  from_user : TgUser
deriving DecidableEq, Repr

/-- Incoming message: the fields of update.message the bot reads.  text is
    None for non-text updates; text_markdown is the markdown rendering the
    command bodies are parsed from. -/
structure TgMessage where
  chat_id : Int
  message_id : Int
  from_user : TgUser
  reply_to : Option ReplyMsg
  text : Option String
  text_markdown : String
deriving DecidableEq, Repr

/-- Static configuration of the bot (bot_data.json, defaultComment.txt and
    delete_post_rules.json, loaded once in main). -/
structure Config where
  authorized_group_id : Int
  admin_group_id : Int
  tg_group : String
  subreddit : String
  default_comment_content : String
  title_pre : String
  rules : List (Int × String)
  bot_id : Int
  bot_reddit_name : String

/-- External collaborators: Telegram membership queries, private-send
    success, PRAW Submission.id_from_url (None models ClientException),
    submission fetch, page-title fetch, and the id and shortlink of a newly
    created submission. -/
structure Env where
  memberStatus : Int → Int → ChatMemberStatus
  privateSendOk : Int → Bool
  idFromUrl : String → Option String
  fetchTitleResult : String → Option String
  submissionInfo : String → SubmissionInfo
  newSubmissionId : String
  shortlink : String → String
  commentPermalink : String

/-- Per-chat cache of the bot's own admin status (self.tg_groups). -/
abbrev AdminCache := List (Int × Bool)

/-- Lookup in the admin cache (dict membership plus attribute read). -/
def cacheLookup (cache : AdminCache) (chat_id : Int) : Option Bool :=
  cache.lookup chat_id

/-- is_sender_admin of marvin.py: true iff the member status queried from
    Telegram is ADMINISTRATOR or CREATOR. -/
def is_sender_admin (memberStatus : Int → Int → ChatMemberStatus) (chat_id user_id : Int) : Bool :=
  match memberStatus chat_id user_id with
  | .administrator => true
  | .creator => true
  | _ => false

/-- get_user_name of marvin.py: at-prefixed username when set, else the
    telegram full name (first name, plus last name when set). -/
def get_user_name (u : TgUser) : String :=
  match u.username with
  | some un => "@" ++ un
  | none =>
    u.first_name ++ (match u.last_name with | some l => " " ++ l | none => "")

/-- delete_message_if_admin of marvin.py: on first sight of a chat, query
    and cache the bot's own admin status there; delete (delayed when a
    positive delay is given) only when the cached status is admin. -/
def delete_message_if_admin (env : Env) (bot_id : Int) (cache : AdminCache)
    (chat_id message_id : Int) (seconds_delay : Nat) : AdminCache × List Action :=
  match cacheLookup cache chat_id with
  | none =>
    let is_admin := is_sender_admin env.memberStatus chat_id bot_id
    let cache2 := (chat_id, is_admin) :: cache
    if is_admin then
      if seconds_delay > 0 then (cache2, [.tgDeleteDelayed chat_id message_id seconds_delay])
      else (cache2, [.tgDelete chat_id message_id])
    else (cache2, [])
  | some is_admin =>
    if is_admin then
      if seconds_delay > 0 then (cache, [.tgDeleteDelayed chat_id message_id seconds_delay])
      else (cache, [.tgDelete chat_id message_id])
    else (cache, [])

/-- send_tg_message_reply_or_private of marvin.py: try the private send;
    on TelegramError fall back to an in-group send prefixed with the mention
    or a request to set a username. -/
def send_tg_message_reply_or_private (env : Env) (m : TgMessage) (text : String) : Action :=
  if env.privateSendOk m.from_user.id then
    .tgSendUser m.from_user.id text
  else
    match m.from_user.username with
    | none =>
      let tag := "[" ++ m.from_user.first_name ++
        (match m.from_user.last_name with | some l => " " ++ l | none => "") ++
        ", imposta un username!]"
      .tgSendTagged m.chat_id tag text
    | some un => .tgSendTagged m.chat_id ("@" ++ un) text

/-- Denial pattern used at every precondition failure in marvin.py:
    delete_message_if_admin on the command message (no delay), then
    send_tg_message_reply_or_private with the denial text. -/
def denyWith (env : Env) (cfg : Config) (cache : AdminCache) (m : TgMessage)
    (text : String) : AdminCache × List Action :=
  let r := delete_message_if_admin env cfg.bot_id cache m.chat_id m.message_id 0
  (r.1, r.2 ++ [send_tg_message_reply_or_private env m text])

/-- Wrong-group denial text (the source concatenates "solo nel" and
    "gruppo" with no separating space). -/
def wrongGroupMsg (cfg : Config) (m : TgMessage) : String :=
  "Spiacente, questo bot funziona solo nel" ++ "gruppo autorizzato con id " ++
    toString cfg.authorized_group_id ++ ", non in " ++ toString m.chat_id

/-- Text of the boilerplate comment after placeholder substitution
    (string-building part of add_default_comment). -/
def default_comment_text (cfg : Config) (tg_msg_id : Option Int) : String :=
  let s := cfg.default_comment_content
  let s := match tg_msg_id with
    | none => pyReplace s "{TG_MSG_ID}" ""
    | some i => pyReplace s "{TG_MSG_ID}" ("/" ++ toString i)
  let s := pyReplace s "{SUBREDDIT}" cfg.subreddit
  pyReplace s "{TG_GROUP}" cfg.tg_group

/-- add_default_comment of marvin.py: reply on the submission with the
    substituted boilerplate and distinguish the comment sticky. -/
def add_default_comment (cfg : Config) (post_submission : String)
    (tg_msg_id : Option Int) : List Action :=
  [.redditReply post_submission (default_comment_text cfg tg_msg_id),
   .redditDistinguish post_submission]

/-- Python s[1:]. -/
def strDrop1 (s : String) : String :=
  String.mk s.data.tail

/-- comment of marvin.py: context check, reply-target check, URL-presence
    check (the dict of URL entities is only tested for emptiness, then
    popitem picks the last URL), reference resolution, community and lock
    checks, then a composed reply plus a group confirmation. -/
def comment (cfg : Config) (env : Env) (cache : AdminCache) (m : TgMessage) :
    AdminCache × List Action :=
  if m.chat_id ≠ cfg.authorized_group_id then
    denyWith env cfg cache m (wrongGroupMsg cfg m)
  else
    match m.reply_to with
    | none => denyWith env cfg cache m "Per usare /comment devi rispondere ad un messaggio"
    | some reply =>
      if reply.urls.isEmpty then
        denyWith env cfg cache m
          ("Per usare questo comando devi rispondere " ++
           "ad un messaggio del bot contenente un link")
      else
        let username := get_user_name m.from_user
        let comment_text :=
          "\\[[Telegram](https://t.me/" ++ cfg.tg_group ++ "/" ++
            toString m.message_id ++ "/)" ++ " - " ++
            "[" ++ username ++ "](https://t.me/" ++ strDrop1 username ++ ")" ++ "\\]  \n" ++
            pyStrip (pyReplace m.text_markdown "/comment" "")
        let url := reply.urls.getLastD ""
        match env.idFromUrl url with
        | none =>
          denyWith env cfg cache m "Il link a cui hai risposto non è un link di reddit valido"
        | some cutted_url =>
          let sub := env.submissionInfo cutted_url
          if sub.display_name = cfg.subreddit then
            if sub.locked then
              let d := denyWith env cfg cache m "Non puoi commentare un post lockato!"
              (d.1, Action.redditFetch cutted_url :: d.2)
            else
              (cache,
               [Action.redditFetch cutted_url,
                Action.redditReply cutted_url comment_text,
                Action.tgSendReply cfg.authorized_group_id
                  ("Commento aggiunto al post! (da: " ++ get_user_name m.from_user ++ ")\n" ++
                   "https://www.reddit.com" ++ env.commentPermalink)
                  reply.message_id])
          else
            let d := denyWith env cfg cache m
              ("Non puoi inviare commenti a post" ++
               "che non appartengono al subreddit: " ++ cfg.subreddit)
            (d.1, Action.redditFetch cutted_url :: d.2)

/-- Tail of postlink after scheme validation: fetch the page title
    (falsy result, None or empty, is rejected), then submit, boilerplate
    comment and confirmation. -/
def postlinkFetch (cfg : Config) (env : Env) (cache : AdminCache) (m : TgMessage)
    (reply_message : ReplyMsg) (link_to_post : String) : AdminCache × List Action :=
  let fetchA := Action.fetchTitle link_to_post
  let failed := fun (_ : Unit) =>
    let d := denyWith env cfg cache m "Non sono riuscito a trovare il titolo della pagina"
    (d.1, fetchA :: d.2)
  match env.fetchTitleResult link_to_post with
  | none => failed ()
  | some t =>
    if t = "" then failed ()
    else
      let title := "[" ++ cfg.title_pre ++ get_user_name reply_message.from_user ++ "] " ++ t
      let subId := env.newSubmissionId
      (cache,
       fetchA :: Action.redditSubmitLink title link_to_post ::
       add_default_comment cfg subId (some m.message_id) ++
       [Action.tgSendReply cfg.authorized_group_id
          ("Post creato: " ++ env.shortlink subId ++
           " (da: " ++ get_user_name m.from_user ++ ")")
          reply_message.message_id])

/-- postlink of marvin.py: context, reply-target, moderator, URL-presence
    and single-URL checks, scheme validation (missing scheme defaults to
    https, non-HTTP(S) scheme is rejected), then the fetch and submit
    workflow. -/
def postlink (cfg : Config) (env : Env) (cache : AdminCache) (m : TgMessage) :
    AdminCache × List Action :=
  if m.chat_id ≠ cfg.authorized_group_id then
    denyWith env cfg cache m (wrongGroupMsg cfg m)
  else
    match m.reply_to with
    | none => denyWith env cfg cache m "Per usare /postlink devi rispondere ad un messaggio"
    | some reply_message =>
      if ¬ is_sender_admin env.memberStatus m.chat_id m.from_user.id then
        denyWith env cfg cache m "Spiacente, non sei un amministratore."
      else if reply_message.urls.isEmpty then
        denyWith env cfg cache m "Il messaggio originale deve contenere una URL"
      else if reply_message.urls.length > 1 then
        denyWith env cfg cache m "Il messaggio originale deve contenere una **sola** URL"
      else
        let link_to_post := reply_message.urls.getLastD ""
        let scheme := urlScheme link_to_post
        if scheme = "" then
          postlinkFetch cfg env cache m reply_message ("https://" ++ link_to_post)
        else if scheme ≠ "http" ∧ scheme ≠ "https" then
          denyWith env cfg cache m "Il messaggio originale deve contenere un link HTTP(S)"
        else
          postlinkFetch cfg env cache m reply_message link_to_post

/-- posttext of marvin.py: context, reply-target and moderator checks, then
    the title-length checks (empty title and too-short title get distinct
    denials), then submit, boilerplate comment and confirmation. -/
def posttext (cfg : Config) (env : Env) (cache : AdminCache) (m : TgMessage) :
    AdminCache × List Action :=
  if m.chat_id ≠ cfg.authorized_group_id then
    denyWith env cfg cache m (wrongGroupMsg cfg m)
  else
    match m.reply_to with
    | none => denyWith env cfg cache m "Per usare /posttext devi rispondere ad un messaggio"
    | some reply_message =>
      if ¬ is_sender_admin env.memberStatus m.chat_id m.from_user.id then
        denyWith env cfg cache m "Spiacente, non sei un amministratore."
      else
        let admin_post_title := pyStrip (pyReplace m.text_markdown "/posttext" "")
        if admin_post_title.length < 1 then
          denyWith env cfg cache m
            ("Utilizzando il comando, aggiungi " ++ "un titolo al post:\n/posttext <titolo>")
        else if admin_post_title.length < 6 then
          denyWith env cfg cache m "Serve un titolo più lungo! Riprova"
        else
          let question_title :=
            "[" ++ cfg.title_pre ++ get_user_name reply_message.from_user ++ "] " ++
              admin_post_title
          let question_content := reply_message.text_markdown
          let subId := env.newSubmissionId
          (cache,
           Action.redditSubmitText question_title question_content ::
           add_default_comment cfg subId (some m.message_id) ++
           [Action.tgSendReply cfg.authorized_group_id
              ("Post creato: " ++ env.shortlink subId ++
               " (da: " ++ get_user_name m.from_user ++ ")")
              reply_message.message_id])

/-- delrule of marvin.py: context, reply-target, moderator and URL-presence
    checks, reference resolution, rule-number parsing and lookup, optional
    note (the argument with the /delrule token removed and every occurrence
    of the rule number removed, then stripped), community check; the
    community-match branch then crashes with an unhandled TypeError while
    composing the removal comment (line 519 concatenates the praw
    Subreddit object into a str), so the intended comment, removal, lock
    and confirmation never run. -/
def delrule (cfg : Config) (env : Env) (cache : AdminCache) (m : TgMessage) :
    AdminCache × List Action :=
  if m.chat_id ≠ cfg.authorized_group_id then
    denyWith env cfg cache m (wrongGroupMsg cfg m)
  else
    match m.reply_to with
    | none => denyWith env cfg cache m "Per usare /delrule devi rispondere ad un messaggio"
    | some reply =>
      if ¬ is_sender_admin env.memberStatus m.chat_id m.from_user.id then
        denyWith env cfg cache m "Spiacente, non sei un amministratore."
      else if reply.urls.isEmpty then
        denyWith env cfg cache m
          ("Per usare questo comando devi rispondere " ++
           "ad un messaggio del bot contenente un link")
      else
        let url := reply.urls.getLastD ""
        match env.idFromUrl url with
        | none =>
          denyWith env cfg cache m "Il link a cui hai risposto non è un link di reddit valido"
        | some cutted_url =>
          let splitted_message := pySplit (pyStrip (pyReplace m.text_markdown "/delrule" ""))
          match splitted_message with
          | [] =>
            denyWith env cfg cache m
              "Non hai fornito il numero di regola per rimuovere il post..."
          | tok :: _ =>
            match pyIntParse tok with
            | none =>
              denyWith env cfg cache m
                ("Hai fornito un numero di regola non valido... " ++
                 "Utilizza il comando con /delrule " ++
                 "<numero regola> <note(opzionale)>")
            | some rule_number =>
              match cfg.rules.lookup rule_number with
              | none =>
                denyWith env cfg cache m
                  "Hai fornito un numero di regola non presente nella lista..."
              | some _rule_text =>
                let _note_message : Option String :=
                  if splitted_message.length > 1 then
                    some (pyStrip (pyReplace (pyReplace m.text_markdown "/delrule" "")
                      (toString rule_number) ""))
                  else none
                let sub := env.submissionInfo cutted_url
                if sub.display_name = cfg.subreddit then
                  -- Line 519 of marvin.py appends the praw Subreddit object
                  -- itself (not str(...) as at line 175) to the modmail
                  -- line; str.__add__ with it raises TypeError, after the
                  -- lazy fetch triggered by the community comparison and
                  -- before submission.reply, so the composed comment is
                  -- never posted and nothing is removed or locked.
                  (cache, [Action.redditFetch cutted_url, Action.raiseTypeError])
                else
                  let d := denyWith env cfg cache m
                    ("Non puoi cancellare post che non appartengono al subreddit: " ++
                     cfg.subreddit)
                  (d.1, Action.redditFetch cutted_url :: d.2)

/-- start of marvin.py: welcome text outside the authorized group, deletion
    of the command inside it. -/
def start (cfg : Config) (env : Env) (cache : AdminCache) (m : TgMessage) :
    AdminCache × List Action :=
  if m.chat_id ≠ cfg.authorized_group_id then
    (cache,
     [Action.tgSend m.chat_id
        ("Ciao, benvenuto in marvin! Visita la pagina " ++
         "github per maggiori informazioni https://github.com/fen0x/marvin")])
  else
    delete_message_if_admin env cfg.bot_id cache m.chat_id m.message_id 0

/-- message_handler of marvin.py: dispatch on the leading text of the
    message; any other leading-slash text is deleted (delay 5) via
    delete_message_if_admin, in whatever chat it arrived. -/
def message_handler (cfg : Config) (env : Env) (cache : AdminCache) (m : TgMessage) :
    AdminCache × List Action :=
  match m.text with
  | none => (cache, [])
  | some t =>
    if pyStartswith t "/" then
      if pyStartswith t "/start" then start cfg env cache m
      else if pyStartswith t "/comment" then comment cfg env cache m
      else if pyStartswith t "/postlink" then postlink cfg env cache m
      else if pyStartswith t "/posttext" then posttext cfg env cache m
      else if pyStartswith t "/delrule" then delrule cfg env cache m
      else delete_message_if_admin env cfg.bot_id cache m.chat_id m.message_id 5
    else (cache, [])

/-- Submission delivered by the subreddit stream (the attributes the relay
    reads). -/
structure StreamSubmission where
  id : String
  title : String
  author : String
  shortlink : String
deriving DecidableEq, Repr

/-- Body of the stream loop of check_new_reddit_posts for one submission:
    unconditional full notification to the admin group when configured,
    then the abbreviated notification to the authorized group unless the
    author is the bot's own reddit user. -/
def check_new_reddit_posts_step (cfg : Config) (sub : StreamSubmission) : List Action :=
  let notifContent :=
    sub.title ++ "\n" ++ "Postato da: " ++ sub.author ++ "\n" ++ sub.shortlink
  (if cfg.admin_group_id ≠ 0 then [Action.tgSend cfg.admin_group_id notifContent] else []) ++
  (if sub.author ≠ cfg.bot_reddit_name then
    [Action.tgSend cfg.authorized_group_id (sub.title ++ "\n" ++ sub.shortlink)]
  else [])

/-- Test for any reddit interaction, the lazy fetch included. -/
def Action.isRedditCall : Action → Bool
  | .redditFetch _ => true
  | .redditReply _ _ => true
  | .redditRemove _ => true
  | .redditLock _ => true
  | .redditSubmitLink _ _ => true
  | .redditSubmitText _ _ => true
  | .redditDistinguish _ => true
  | _ => false

/-- Test for a reddit call that mutates remote state (a fetch is a read). -/
def Action.isRedditMutation : Action → Bool
  | .redditReply _ _ => true
  | .redditRemove _ => true
  | .redditLock _ => true
  | .redditSubmitLink _ _ => true
  | .redditSubmitText _ _ => true
  | .redditDistinguish _ => true
  | _ => false

/-- Test for a web-fetcher call. -/
def Action.isTitleFetch : Action → Bool
  | .fetchTitle _ => true
  | _ => false

/-- Test for a reddit submission creation. -/
def Action.isSubmit : Action → Bool
  | .redditSubmitLink _ _ => true
  | .redditSubmitText _ _ => true
  | _ => false

/-- No reddit interaction and no page fetch anywhere in the call list. -/
def remoteFree (l : List Action) : Bool :=
  l.all fun a => !(a.isRedditCall || a.isTitleFetch)

/-- No remote-state mutation anywhere in the call list. -/
def mutationFree (l : List Action) : Bool :=
  l.all fun a => !a.isRedditMutation

/-- Some Telegram send in the list carries exactly the given text. -/
def sendsText (l : List Action) (msg : String) : Bool :=
  l.any fun a =>
    match a with
    | .tgSend _ t => t == msg
    | .tgSendReply _ t _ => t == msg
    | .tgSendUser _ t => t == msg
    | .tgSendTagged _ _ t => t == msg
    | _ => false

/-- Some plain send in the list targets the given chat. -/
def sendsToChat (l : List Action) (chat : Int) : Bool :=
  l.any fun a =>
    match a with
    | .tgSend c _ => c == chat
    | _ => false

/-- No brace character anywhere in the string (placeholder-token residue
    test; 123 and 125 are the ASCII codes of the two braces). -/
def noBraceTokens (s : String) : Bool :=
  s.data.all fun c => !(c == Char.ofNat 123 || c == Char.ofNat 125)

/-- Concrete Telegram user for instantiating the theorems. -/
def baseUser : TgUser :=
  { id := 10, username := some "alice", first_name := "Alice", last_name := none }

/-- Concrete configuration for instantiating the theorems. -/
def baseCfg : Config :=
  { authorized_group_id := 1, admin_group_id := 2, tg_group := "grp",
    subreddit := "sub",
    default_comment_content := "A{TG_MSG_ID}B{SUBREDDIT}C{TG_GROUP}D",
    title_pre := "p-", rules := [(3, "No spam")], bot_id := 99,
    bot_reddit_name := "marvinbot" }

/-- Concrete environment: every user is an administrator, private sends
    succeed, two known reddit links resolve, submission def is locked and
    every other submission belongs to the configured community. -/
def baseEnv : Env :=
  { memberStatus := fun _ _ => .administrator,
    privateSendOk := fun _ => true,
    idFromUrl := fun u =>
      if u = "https://redd.it/abc" then some "abc"
      else if u = "https://redd.it/def" then some "def"
      else none,
    fetchTitleResult := fun _ => some "A Title",
    submissionInfo := fun sid =>
      if sid = "def" then { display_name := "sub", locked := true }
      else { display_name := "sub", locked := false },
    newSubmissionId := "newid",
    shortlink := fun i => "https://redd.it/" ++ i,
    commentPermalink := "/r/sub/comments/abc/x/c1" }

/-- Concrete reply-target with the given URL entities. -/
def replyWithUrls (urls : List String) : ReplyMsg :=
  { message_id := 50, urls := urls, text_markdown := "body text", from_user := baseUser }

/-- Concrete incoming command message in the authorized group. -/
def msgWith (text_markdown : String) (urls : List String) : TgMessage :=
  { chat_id := 1, message_id := 7, from_user := baseUser,
    reply_to := some (replyWithUrls urls), text := some text_markdown,
    text_markdown := text_markdown }

/-- Configuration used by the C4 boilerplate-substitution statements:
    template with the three placeholder tokens, community test, group grp. -/
def cfg4 : Config := { baseCfg with subreddit := "test" }

/-- Configuration for the C2 counterexample: no admin channel, so the only
    possible notification is the abbreviated one. -/
def cfgC2 : Config := { baseCfg with admin_group_id := 0 }

/-- Stream submission authored by the bot's own reddit user. -/
def subOwn : StreamSubmission :=
  { id := "xyz", title := "T", author := "marvinbot", shortlink := "https://redd.it/xyz" }

/-- Stream submission authored by someone else. -/
def subOther : StreamSubmission :=
  { id := "w", title := "T2", author := "bob", shortlink := "https://redd.it/w" }

/-- Unrecognized slash command sent in a chat that is NOT the authorized
    group (id 999 versus authorized id 1). -/
def msgC7 : TgMessage :=
  { chat_id := 999, message_id := 7, from_user := baseUser, reply_to := none,
    text := some "/foo", text_markdown := "/foo" }

/-- Same message with the reply-target's URL entities reduced to just the
    last detected one (the URL popitem() returns). -/
def keepLastUrl (m : TgMessage) (r : ReplyMsg) : TgMessage :=
  { m with reply_to := some { r with urls := [r.urls.getLastD ""] } }

/-- Command message whose reply target carries two URLs. -/
def msgC1 : TgMessage :=
  msgWith "/comment hi" ["https://redd.it/def", "https://redd.it/abc"]

/-- Command message whose reply target carries no URL. -/
def msgNoUrl : TgMessage := msgWith "/comment hi" []

/-- postlink command message whose reply target carries two URLs. -/
def msgTwoUrlPL : TgMessage := msgWith "/postlink" ["u1", "u2"]

/-- delrule command message replying to the known reddit link. -/
def msgDel (txt : String) : TgMessage := msgWith txt ["https://redd.it/abc"]

/-- Environment where submission abc belongs to another community and
    submission def is in the configured community but locked. -/
def envC5 : Env :=
  { baseEnv with
    submissionInfo := fun sid =>
      if sid = "def" then { display_name := "sub", locked := true }
      else { display_name := "other", locked := false } }

/-- Environment where the command sender (user 10) is an ordinary member
    while the bot (user 99) is an administrator. -/
def envC6 : Env :=
  { baseEnv with
    memberStatus := fun _ u => if u = (10 : Int) then .member else .administrator }

/-- Member-status function agreeing with the base environment on the bot's
    own id but differing on the sender. -/
def statC6 : Int → Int → ChatMemberStatus :=
  fun _ u => if u = (99 : Int) then .administrator else .member

theorem remoteFree_delete_message_if_admin (env : Env) (bid : Int) (cache : AdminCache)
    (cid mid : Int) (d : Nat) :
    remoteFree (delete_message_if_admin env bid cache cid mid d).2 = true := by
  cases h : cacheLookup cache cid <;>
    simp only [delete_message_if_admin, h] <;>
    split <;> first | (split <;> rfl) | rfl

theorem remoteFree_denyWith (env : Env) (cfg : Config) (cache : AdminCache)
    (m : TgMessage) (t : String) :
    remoteFree (denyWith env cfg cache m t).2 = true := by
  have h := remoteFree_delete_message_if_admin env cfg.bot_id cache m.chat_id m.message_id 0
  unfold denyWith send_tg_message_reply_or_private
  simp only [remoteFree, List.all_append] at *
  rw [h]
  split
  · rfl
  · split <;> rfl

theorem mutationFree_of_remoteFree {l : List Action} (h : remoteFree l = true) :
    mutationFree l = true := by
  simp only [remoteFree, mutationFree, List.all_eq_true] at *
  intro a ha
  have := h a ha
  cases a <;> simp_all [Action.isRedditCall, Action.isRedditMutation, Action.isTitleFetch]

theorem mutationFree_denyWith (env : Env) (cfg : Config) (cache : AdminCache)
    (m : TgMessage) (t : String) :
    mutationFree (denyWith env cfg cache m t).2 = true :=
  mutationFree_of_remoteFree (remoteFree_denyWith env cfg cache m t)

theorem sendsText_denyWith (env : Env) (cfg : Config) (cache : AdminCache)
    (m : TgMessage) (t : String) :
    sendsText (denyWith env cfg cache m t).2 t = true := by
  unfold denyWith send_tg_message_reply_or_private
  by_cases hp : env.privateSendOk m.from_user.id
  · simp [sendsText, List.any_append, hp]
  · rcases hu : m.from_user.username with _ | un <;>
      simp [sendsText, List.any_append, hp, hu]

/-- No submission-creating call inside a denial. -/
theorem noSubmit_denyWith (env : Env) (cfg : Config) (cache : AdminCache)
    (m : TgMessage) (t : String) :
    (denyWith env cfg cache m t).2.all (fun a => !a.isSubmit) = true := by
  have h := remoteFree_denyWith env cfg cache m t
  simp only [remoteFree, List.all_eq_true] at *
  intro a ha
  have := h a ha
  cases a <;> simp_all [Action.isRedditCall, Action.isTitleFetch, Action.isSubmit]

/-- No web-fetcher call inside a denial. -/
theorem noFetch_denyWith (env : Env) (cfg : Config) (cache : AdminCache)
    (m : TgMessage) (t : String) :
    (denyWith env cfg cache m t).2.all (fun a => !a.isTitleFetch) = true := by
  have h := remoteFree_denyWith env cfg cache m t
  simp only [remoteFree, List.all_eq_true] at *
  intro a ha
  have := h a ha
  cases a <;> simp_all [Action.isRedditCall, Action.isTitleFetch]

/-- Prepending any call keeps an exact-text send present. -/
theorem sendsText_cons (a : Action) {l : List Action} {t : String}
    (h : sendsText l t = true) : sendsText (a :: l) t = true := by
  simp [sendsText, List.any_cons] at *
  right
  exact h

/-- Prepending a submission fetch keeps a call list mutation-free. -/
theorem mutationFree_cons_fetch (sid : String) {l : List Action}
    (h : mutationFree l = true) :
    mutationFree (Action.redditFetch sid :: l) = true := by
  simp [mutationFree, List.all_cons, Action.isRedditMutation] at *
  exact h

/-- C4 counterexample: substituting the boilerplate template
    A{TG_MSG_ID}B{SUBREDDIT}C{TG_GROUP}D with message id 12345, community
    test and group grp does NOT insert the value 12345 verbatim at the
    token's original position: the code prepends a slash, so the result
    differs from A12345BtestCgrpD. -/
theorem C4_counterexample :
    default_comment_text cfg4 (some 12345) ≠ "A12345BtestCgrpD" := by
  decide

/-- C4 (amended): substituting the boilerplate template containing the
    three placeholder tokens with message id 12345, community test and
    group grp yields a string with zero remaining brace tokens, with the
    community and group values inserted verbatim at their original
    positions, and with the message id inserted as a slash-prefixed path
    segment /12345 at the first token's position; with no originating
    message id the first token is replaced by the empty string. -/
theorem C4_placeholder_substitution :
    default_comment_text cfg4 (some 12345) = "A/12345BtestCgrpD" ∧
    noBraceTokens (default_comment_text cfg4 (some 12345)) = true ∧
    default_comment_text cfg4 none = "ABtestCgrpD" ∧
    noBraceTokens (default_comment_text cfg4 none) = true := by
  exact ⟨by decide, by decide, by decide, by decide⟩

/-- C2 counterexample: the relay keeps no Created-Posts set at all, so no
    suppression set contains the id xyz, yet the relay sends nothing for a
    submission authored by the bot: the claim that every submission whose
    id is not in the set gets the abbreviated notification fails here. -/
theorem C2_counterexample :
    check_new_reddit_posts_step cfgC2 subOwn = [] := by
  decide

/-- C2 (amended): the relay maintains no Created-Posts set and removes
    nothing; it suppresses the abbreviated notification by comparing the
    submission author with the bot's reddit username.  When the admin
    channel differs from the authorized group, a plain send to the
    authorized group happens exactly when the author is not the bot. -/
theorem C2_relay_suppression (cfg : Config) (sub : StreamSubmission)
    (h : cfg.admin_group_id ≠ cfg.authorized_group_id) :
    sendsToChat (check_new_reddit_posts_step cfg sub) cfg.authorized_group_id =
      !(sub.author == cfg.bot_reddit_name) := by
  unfold check_new_reddit_posts_step sendsToChat
  by_cases h0 : cfg.admin_group_id = 0 <;>
    by_cases ha : sub.author = cfg.bot_reddit_name <;>
      simp [h0, ha, h, List.any_append]

/-- C2 witness: a submission by a different author in the base
    configuration produces the abbreviated send. -/
theorem C2_relay_suppression_witness :
    sendsToChat (check_new_reddit_posts_step baseCfg subOther)
        baseCfg.authorized_group_id =
      !(subOther.author == baseCfg.bot_reddit_name) :=
  C2_relay_suppression baseCfg subOther (by decide)

/-- C7 counterexample: an unrecognized leading-slash message sent OUTSIDE
    the authorized group, in a chat where the bot has moderator rights, is
    still scheduled for delayed deletion: the handler never checks the
    chat against the authorized group, so deletion is not restricted to it
    and the claimed iff fails in the only-if direction. -/
theorem C7_counterexample :
    msgC7.chat_id ≠ baseCfg.authorized_group_id ∧
    (message_handler baseCfg baseEnv [] msgC7).2 =
      [Action.tgDeleteDelayed 999 7 5] := by
  exact ⟨by decide, by decide⟩

/-- C7 (amended): a leading-slash message matching none of the five
    commands is scheduled for best-effort deletion after a five-second
    delay exactly when the bot has moderator rights in the chat the
    message arrived in (first sight of that chat, so the cached status is
    the freshly queried one), whatever chat that is: the authorized group
    plays no role in this path. -/
theorem C7_slash_deletion (cfg : Config) (env : Env) (m : TgMessage) (t : String)
    (ht : m.text = some t)
    (h0 : pyStartswith t "/" = true)
    (h1 : pyStartswith t "/start" = false)
    (h2 : pyStartswith t "/comment" = false)
    (h3 : pyStartswith t "/postlink" = false)
    (h4 : pyStartswith t "/posttext" = false)
    (h5 : pyStartswith t "/delrule" = false) :
    (message_handler cfg env [] m).2 =
      (if is_sender_admin env.memberStatus m.chat_id cfg.bot_id then
        [Action.tgDeleteDelayed m.chat_id m.message_id 5]
      else []) := by
  simp only [message_handler, ht, h0, h1, h2, h3, h4, h5, if_true, if_false,
    Bool.false_eq_true, delete_message_if_admin, cacheLookup, List.lookup]
  by_cases hadm : is_sender_admin env.memberStatus m.chat_id cfg.bot_id <;>
    simp [hadm]

/-- C7 witness: the amended statement applied to the /foo message in chat
    999 where the bot is an administrator. -/
theorem C7_slash_deletion_witness :
    (message_handler baseCfg baseEnv [] msgC7).2 =
      (if is_sender_admin baseEnv.memberStatus msgC7.chat_id baseCfg.bot_id then
        [Action.tgDeleteDelayed msgC7.chat_id msgC7.message_id 5]
      else []) :=
  C7_slash_deletion baseCfg baseEnv msgC7 "/foo" rfl (by decide) (by decide)
    (by decide) (by decide) (by decide) (by decide)

theorem getLastD_single {α : Type} (a d : α) : List.getLastD [a] d = a := by
  simp

/-- C1 counterexample: a comment invocation whose reply target carries two
    URLs is NOT denied: the handler proceeds, resolves the LAST detected
    URL (submission abc) and posts a reddit reply, so the multiple-URL case
    is disambiguated rather than rejected. -/
theorem C1_counterexample :
    (comment baseCfg baseEnv [] msgC1).2.any Action.isRedditMutation = true ∧
    Action.redditFetch "abc" ∈ (comment baseCfg baseEnv [] msgC1).2 := by
  exact ⟨by decide, by decide⟩

/-- C1 (amended): with zero detected URLs all three commands deny with
    their respective missing-link message and make no reddit call and no
    page fetch; with two or more URLs only post-link denies (with the
    single-URL message); comment and delete-with-rule never reject multiple
    URLs: each behaves exactly as if only the last detected URL were
    present. -/
theorem C1_link_extraction :
    (∀ (cfg : Config) (env : Env) (cache : AdminCache) (m : TgMessage) (r : ReplyMsg),
      m.chat_id = cfg.authorized_group_id →
      m.reply_to = some r →
      r.urls = [] →
      is_sender_admin env.memberStatus m.chat_id m.from_user.id = true →
      (remoteFree (comment cfg env cache m).2 = true ∧
        sendsText (comment cfg env cache m).2
          ("Per usare questo comando devi rispondere " ++
           "ad un messaggio del bot contenente un link") = true) ∧
      (remoteFree (postlink cfg env cache m).2 = true ∧
        sendsText (postlink cfg env cache m).2
          "Il messaggio originale deve contenere una URL" = true) ∧
      (remoteFree (delrule cfg env cache m).2 = true ∧
        sendsText (delrule cfg env cache m).2
          ("Per usare questo comando devi rispondere " ++
           "ad un messaggio del bot contenente un link") = true)) ∧
    (∀ (cfg : Config) (env : Env) (cache : AdminCache) (m : TgMessage) (r : ReplyMsg),
      m.chat_id = cfg.authorized_group_id →
      m.reply_to = some r →
      is_sender_admin env.memberStatus m.chat_id m.from_user.id = true →
      r.urls.length > 1 →
      remoteFree (postlink cfg env cache m).2 = true ∧
      sendsText (postlink cfg env cache m).2
        "Il messaggio originale deve contenere una **sola** URL" = true) ∧
    (∀ (cfg : Config) (env : Env) (cache : AdminCache) (m : TgMessage) (r : ReplyMsg),
      m.reply_to = some r →
      r.urls ≠ [] →
      comment cfg env cache m = comment cfg env cache (keepLastUrl m r) ∧
      delrule cfg env cache m = delrule cfg env cache (keepLastUrl m r)) := by
  refine ⟨?_, ?_, ?_⟩
  · intro cfg env cache m r hc hr hu hadmin
    rw [hc] at hadmin
    refine ⟨⟨?_, ?_⟩, ⟨?_, ?_⟩, ⟨?_, ?_⟩⟩ <;>
      simp only [comment, postlink, delrule, hc, hr, hu, hadmin, ne_eq, not_true_eq_false,
        if_false, List.isEmpty_nil, if_true, not_false_eq_true, ite_true, ite_false,
        Bool.not_true, Bool.false_eq_true] <;>
      first
        | exact remoteFree_denyWith env cfg cache m _
        | exact sendsText_denyWith env cfg cache m _
  · intro cfg env cache m r hc hr hadmin hl
    rw [hc] at hadmin
    have hne : r.urls.isEmpty = false := by
      cases h : r.urls with
      | nil => rw [h] at hl; simp at hl
      | cons a l => simp
    refine ⟨?_, ?_⟩ <;>
      simp only [postlink, hc, hr, hadmin, hne, hl, ne_eq, not_true_eq_false, if_false,
        if_true, not_false_eq_true, ite_true, ite_false, Bool.not_true,
        Bool.false_eq_true, gt_iff_lt] <;>
      first
        | exact remoteFree_denyWith env cfg cache m _
        | exact sendsText_denyWith env cfg cache m _
  · intro cfg env cache m r hr hu
    cases h : r.urls with
    | nil => exact absurd h hu
    | cons a l =>
      have hrt : (keepLastUrl m r).reply_to =
          some { r with urls := [r.urls.getLastD ""] } := rfl
      have hcid : (keepLastUrl m r).chat_id = m.chat_id := rfl
      have htm : (keepLastUrl m r).text_markdown = m.text_markdown := rfl
      have hfu : (keepLastUrl m r).from_user = m.from_user := rfl
      have hmid : (keepLastUrl m r).message_id = m.message_id := rfl
      have hd : ∀ t, denyWith env cfg cache (keepLastUrl m r) t =
          denyWith env cfg cache m t := fun _ => rfl
      have hw : wrongGroupMsg cfg (keepLastUrl m r) = wrongGroupMsg cfg m := rfl
      constructor <;>
        simp only [comment, delrule, hr, hrt, hcid, htm, hfu, hmid, hd, hw, h,
          List.isEmpty_cons, getLastD_single, Bool.false_eq_true, if_false, ite_false]

/-- C1 witness: the amended statement instantiated at a zero-URL comment,
    a two-URL postlink, and the two-URL comment message. -/
theorem C1_link_extraction_witness :
    remoteFree (comment baseCfg baseEnv [] msgNoUrl).2 = true ∧
    remoteFree (postlink baseCfg baseEnv [] msgTwoUrlPL).2 = true ∧
    comment baseCfg baseEnv [] msgC1 =
      comment baseCfg baseEnv []
        (keepLastUrl msgC1 (replyWithUrls ["https://redd.it/def", "https://redd.it/abc"])) :=
  ⟨(C1_link_extraction.1 baseCfg baseEnv [] msgNoUrl (replyWithUrls [])
      (by decide) rfl rfl (by decide)).1.1,
   (C1_link_extraction.2.1 baseCfg baseEnv [] msgTwoUrlPL (replyWithUrls ["u1", "u2"])
      (by decide) rfl (by decide) (by decide)).1,
   (C1_link_extraction.2.2 baseCfg baseEnv [] msgC1
      (replyWithUrls ["https://redd.it/def", "https://redd.it/abc"]) rfl (by decide)).1⟩

/-- C3 (code_bug): for /delrule 3 spam again with rule 3 = No spam on a
    submission of the configured community, the code never posts the
    removal comment the claim describes: line 519 of marvin.py
    concatenates the praw Subreddit object itself into the modmail line,
    raising an unhandled TypeError after the lazy fetch and before
    submission.reply.  The embedded run performs exactly the fetch and the
    raise: no reply, no removal, no lock, no confirmation, and in
    particular no remote mutation at all. -/
theorem C3_delrule_crash :
    (delrule baseCfg baseEnv [] (msgDel "/delrule 3 spam again")).2 =
      [Action.redditFetch "abc", Action.raiseTypeError] ∧
    mutationFree (delrule baseCfg baseEnv [] (msgDel "/delrule 3 spam again")).2 = true := by
  exact ⟨by decide, by decide⟩

/-- C5 (confirmed): comment and delete-with-rule on a submission whose
    community differs from the configured one reject with the respective
    denial and perform no remote mutating call (no reply, nothing removed
    or locked, nothing submitted; the lazy submission fetch is a read);
    comment likewise rejects without mutation when the submission is
    locked. -/
theorem C5_community_mismatch :
    (∀ (cfg : Config) (env : Env) (cache : AdminCache) (m : TgMessage) (r : ReplyMsg)
        (sid : String),
      m.chat_id = cfg.authorized_group_id →
      m.reply_to = some r →
      r.urls ≠ [] →
      env.idFromUrl (r.urls.getLastD "") = some sid →
      ((env.submissionInfo sid).display_name ≠ cfg.subreddit →
        mutationFree (comment cfg env cache m).2 = true ∧
        sendsText (comment cfg env cache m).2
          ("Non puoi inviare commenti a post" ++
           "che non appartengono al subreddit: " ++ cfg.subreddit) = true) ∧
      ((env.submissionInfo sid).display_name = cfg.subreddit →
        (env.submissionInfo sid).locked = true →
        mutationFree (comment cfg env cache m).2 = true ∧
        sendsText (comment cfg env cache m).2
          "Non puoi commentare un post lockato!" = true)) ∧
    (∀ (cfg : Config) (env : Env) (cache : AdminCache) (m : TgMessage) (r : ReplyMsg)
        (sid tok : String) (rest : List String) (n : Int) (rt : String),
      m.chat_id = cfg.authorized_group_id →
      m.reply_to = some r →
      is_sender_admin env.memberStatus m.chat_id m.from_user.id = true →
      r.urls ≠ [] →
      env.idFromUrl (r.urls.getLastD "") = some sid →
      pySplit (pyStrip (pyReplace m.text_markdown "/delrule" "")) = tok :: rest →
      pyIntParse tok = some n →
      cfg.rules.lookup n = some rt →
      (env.submissionInfo sid).display_name ≠ cfg.subreddit →
      mutationFree (delrule cfg env cache m).2 = true ∧
      sendsText (delrule cfg env cache m).2
        ("Non puoi cancellare post che non appartengono al subreddit: " ++
         cfg.subreddit) = true) := by
  constructor
  · intro cfg env cache m r sid hc hr hu hid
    have hne : r.urls.isEmpty = false := by
      cases h : r.urls with
      | nil => exact absurd h hu
      | cons a l => simp
    constructor
    · intro hmm
      refine ⟨?_, ?_⟩ <;>
        simp only [comment, hc, hr, hne, hid, hmm, ne_eq, not_true_eq_false,
          if_false, if_true, not_false_eq_true, ite_true, ite_false,
          Bool.false_eq_true] <;>
        first
          | exact mutationFree_cons_fetch sid (mutationFree_denyWith env cfg cache m _)
          | exact sendsText_cons _ (sendsText_denyWith env cfg cache m _)
    · intro hsame hlock
      refine ⟨?_, ?_⟩ <;>
        simp only [comment, hc, hr, hne, hid, hsame, hlock, ne_eq, not_true_eq_false,
          if_false, if_true, not_false_eq_true, ite_true, ite_false,
          Bool.false_eq_true] <;>
        first
          | exact mutationFree_cons_fetch sid (mutationFree_denyWith env cfg cache m _)
          | exact sendsText_cons _ (sendsText_denyWith env cfg cache m _)
  · intro cfg env cache m r sid tok rest n rt hc hr hadmin hu hid hsplit hn hrt hmm
    rw [hc] at hadmin
    have hne : r.urls.isEmpty = false := by
      cases h : r.urls with
      | nil => exact absurd h hu
      | cons a l => simp
    refine ⟨?_, ?_⟩ <;>
      simp only [delrule, hc, hr, hadmin, hne, hid, hsplit, hn, hrt, hmm, ne_eq,
        not_true_eq_false, if_false, if_true, not_false_eq_true, ite_true,
        ite_false, Bool.not_true, Bool.false_eq_true] <;>
      first
        | exact mutationFree_cons_fetch sid (mutationFree_denyWith env cfg cache m _)
        | exact sendsText_cons _ (sendsText_denyWith env cfg cache m _)

/-- C5 witness: community mismatch for comment and delete-with-rule on
    submission abc, and the locked rejection for comment on submission
    def, in the environment envC5. -/
theorem C5_community_mismatch_witness :
    mutationFree (comment baseCfg envC5 [] (msgWith "/comment hi" ["https://redd.it/abc"])).2
      = true ∧
    mutationFree (comment baseCfg envC5 [] (msgWith "/comment hi" ["https://redd.it/def"])).2
      = true ∧
    mutationFree (delrule baseCfg envC5 [] (msgDel "/delrule 3")).2 = true :=
  ⟨((C5_community_mismatch.1 baseCfg envC5 [] (msgWith "/comment hi" ["https://redd.it/abc"])
        (replyWithUrls ["https://redd.it/abc"]) "abc"
        (by decide) rfl (by decide) (by decide)).1 (by decide)).1,
   ((C5_community_mismatch.1 baseCfg envC5 [] (msgWith "/comment hi" ["https://redd.it/def"])
        (replyWithUrls ["https://redd.it/def"]) "def"
        (by decide) rfl (by decide) (by decide)).2 (by decide) (by decide)).1,
   (C5_community_mismatch.2 baseCfg envC5 [] (msgDel "/delrule 3")
        (replyWithUrls ["https://redd.it/abc"]) "abc" "3" [] 3 "No spam"
        (by decide) rfl (by decide) (by decide) (by decide) (by decide) (by decide)
        (by decide) (by decide)).1⟩

/-- C6 (confirmed): post-link, post-text and delete-with-rule issued by a
    sender whose membership status is neither ADMINISTRATOR nor CREATOR
    are denied with the not-an-administrator message, with no reddit call
    and no page fetch; comment performs no moderator check at all: its
    behaviour is unchanged under any modification of the membership oracle
    that preserves the bot's own status. -/
theorem C6_moderator_check :
    (∀ (cfg : Config) (env : Env) (cache : AdminCache) (m : TgMessage) (r : ReplyMsg),
      m.chat_id = cfg.authorized_group_id →
      m.reply_to = some r →
      env.memberStatus m.chat_id m.from_user.id ≠ .administrator →
      env.memberStatus m.chat_id m.from_user.id ≠ .creator →
      (remoteFree (postlink cfg env cache m).2 = true ∧
        sendsText (postlink cfg env cache m).2
          "Spiacente, non sei un amministratore." = true) ∧
      (remoteFree (posttext cfg env cache m).2 = true ∧
        sendsText (posttext cfg env cache m).2
          "Spiacente, non sei un amministratore." = true) ∧
      (remoteFree (delrule cfg env cache m).2 = true ∧
        sendsText (delrule cfg env cache m).2
          "Spiacente, non sei un amministratore." = true)) ∧
    (∀ (cfg : Config) (env : Env) (cache : AdminCache) (m : TgMessage)
        (f : Int → Int → ChatMemberStatus),
      (∀ c, f c cfg.bot_id = env.memberStatus c cfg.bot_id) →
      comment cfg { env with memberStatus := f } cache m = comment cfg env cache m) := by
  constructor
  · intro cfg env cache m r hc hr h1 h2
    have hadm : is_sender_admin env.memberStatus m.chat_id m.from_user.id = false := by
      unfold is_sender_admin
      cases hst : env.memberStatus m.chat_id m.from_user.id <;> simp_all
    rw [hc] at hadm
    refine ⟨⟨?_, ?_⟩, ⟨?_, ?_⟩, ⟨?_, ?_⟩⟩ <;>
      simp only [postlink, posttext, delrule, hc, hr, hadm, ne_eq, not_true_eq_false,
        if_false, if_true, not_false_eq_true, ite_true, ite_false, Bool.not_false,
        Bool.false_eq_true] <;>
      first
        | exact remoteFree_denyWith env cfg cache m _
        | exact sendsText_denyWith env cfg cache m _
  · intro cfg env cache m f hf
    simp only [comment, denyWith, delete_message_if_admin, is_sender_admin,
      send_tg_message_reply_or_private, hf]

/-- C6 witness: the three admin-only commands denied for the member sender
    in envC6, and comment unchanged under the oracle statC6 that agrees
    with the base environment only on the bot's id. -/
theorem C6_moderator_check_witness :
    remoteFree (postlink baseCfg envC6 [] msgTwoUrlPL).2 = true ∧
    remoteFree (posttext baseCfg envC6 [] (msgWith "/posttext abcdef" [])).2 = true ∧
    remoteFree (delrule baseCfg envC6 [] (msgDel "/delrule 3")).2 = true ∧
    comment baseCfg { baseEnv with memberStatus := statC6 } [] msgC1 =
      comment baseCfg baseEnv [] msgC1 :=
  ⟨((C6_moderator_check.1 baseCfg envC6 [] msgTwoUrlPL (replyWithUrls ["u1", "u2"])
      (by decide) rfl (by decide) (by decide)).1).1,
   ((C6_moderator_check.1 baseCfg envC6 [] (msgWith "/posttext abcdef" [])
      (replyWithUrls []) (by decide) rfl (by decide) (by decide)).2).1.1,
   ((C6_moderator_check.1 baseCfg envC6 [] (msgDel "/delrule 3")
      (replyWithUrls ["https://redd.it/abc"]) (by decide) rfl (by decide)
      (by decide)).2).2.1,
   C6_moderator_check.2 baseCfg baseEnv [] msgC1 statC6 (fun _ => rfl)⟩

/-- C8 (confirmed): with a single extracted URL, a missing scheme makes
    post-link fetch the page title of the https-prefixed URL; a scheme
    that is neither http nor https is rejected with the HTTP(S) denial and
    the web fetcher is never called. -/
theorem C8_scheme_handling (cfg : Config) (env : Env) (cache : AdminCache)
    (m : TgMessage) (r : ReplyMsg) (u : String)
    (hc : m.chat_id = cfg.authorized_group_id)
    (hr : m.reply_to = some r)
    (hadmin : is_sender_admin env.memberStatus m.chat_id m.from_user.id = true)
    (hu : r.urls = [u]) :
    (urlScheme u = "" →
      Action.fetchTitle ("https://" ++ u) ∈ (postlink cfg env cache m).2) ∧
    (urlScheme u ≠ "" → urlScheme u ≠ "http" → urlScheme u ≠ "https" →
      sendsText (postlink cfg env cache m).2
        "Il messaggio originale deve contenere un link HTTP(S)" = true ∧
      (postlink cfg env cache m).2.all (fun a => !a.isTitleFetch) = true) := by
  rw [hc] at hadmin
  constructor
  · intro hs
    simp only [postlink, hc, hr, hu, hadmin, hs, getLastD_single, List.isEmpty_cons,
      List.length_cons, List.length_nil, ne_eq, not_true_eq_false, if_false, if_true,
      not_false_eq_true, ite_true, ite_false, Bool.not_true, Bool.false_eq_true,
      gt_iff_lt, Nat.lt_irrefl]
    rcases hft : env.fetchTitleResult ("https://" ++ u) with _ | t
    · simp [postlinkFetch, hft]
    · by_cases ht : t = "" <;> simp [postlinkFetch, hft, ht]
  · intro hs hh hhs
    refine ⟨?_, ?_⟩ <;>
      simp only [postlink, hc, hr, hu, hadmin, hs, hh, hhs, getLastD_single,
        List.isEmpty_cons, List.length_cons, List.length_nil, ne_eq,
        not_true_eq_false, if_false, if_true, not_false_eq_true, ite_true,
        ite_false, Bool.not_true, Bool.false_eq_true, gt_iff_lt, Nat.lt_irrefl,
        and_self] <;>
      first
        | exact sendsText_denyWith env cfg cache m _
        | exact noFetch_denyWith env cfg cache m _

/-- C8 witness: a scheme-less URL is fetched with the https prefix, and an
    ftp URL is rejected with no fetch. -/
theorem C8_scheme_handling_witness :
    Action.fetchTitle ("https://" ++ "example.com")
      ∈ (postlink baseCfg baseEnv [] (msgWith "/postlink" ["example.com"])).2 ∧
    (postlink baseCfg baseEnv [] (msgWith "/postlink" ["ftp://x.com"])).2.all
      (fun a => !a.isTitleFetch) = true :=
  ⟨(C8_scheme_handling baseCfg baseEnv [] (msgWith "/postlink" ["example.com"])
      (replyWithUrls ["example.com"]) "example.com"
      (by decide) rfl (by decide) (by decide)).1 (by decide),
   ((C8_scheme_handling baseCfg baseEnv [] (msgWith "/postlink" ["ftp://x.com"])
      (replyWithUrls ["ftp://x.com"]) "ftp://x.com"
      (by decide) rfl (by decide) (by decide)).2 (by decide) (by decide)
      (by decide)).2⟩

/-- C9 (confirmed): in delete-with-rule, a first token that does not parse
    as an integer is denied with the invalid-rule-number message, and a
    parsed number absent from the Rule Table is denied with the
    unknown-rule message; both denials happen with no reddit call of any
    kind and no page fetch. -/
theorem C9_rule_validation (cfg : Config) (env : Env) (cache : AdminCache)
    (m : TgMessage) (r : ReplyMsg) (sid tok : String) (rest : List String)
    (hc : m.chat_id = cfg.authorized_group_id)
    (hr : m.reply_to = some r)
    (hadmin : is_sender_admin env.memberStatus m.chat_id m.from_user.id = true)
    (hu : r.urls ≠ [])
    (hid : env.idFromUrl (r.urls.getLastD "") = some sid)
    (hsplit : pySplit (pyStrip (pyReplace m.text_markdown "/delrule" "")) = tok :: rest) :
    (pyIntParse tok = none →
      remoteFree (delrule cfg env cache m).2 = true ∧
      sendsText (delrule cfg env cache m).2
        ("Hai fornito un numero di regola non valido... " ++
         "Utilizza il comando con /delrule " ++
         "<numero regola> <note(opzionale)>") = true) ∧
    (∀ n : Int, pyIntParse tok = some n → cfg.rules.lookup n = none →
      remoteFree (delrule cfg env cache m).2 = true ∧
      sendsText (delrule cfg env cache m).2
        "Hai fornito un numero di regola non presente nella lista..." = true) := by
  rw [hc] at hadmin
  have hne : r.urls.isEmpty = false := by
    cases h : r.urls with
    | nil => exact absurd h hu
    | cons a l => simp
  constructor
  · intro hn
    refine ⟨?_, ?_⟩ <;>
      simp only [delrule, hc, hr, hadmin, hne, hid, hsplit, hn, ne_eq,
        not_true_eq_false, if_false, if_true, not_false_eq_true, ite_true,
        ite_false, Bool.not_true, Bool.false_eq_true] <;>
      first
        | exact remoteFree_denyWith env cfg cache m _
        | exact sendsText_denyWith env cfg cache m _
  · intro n hn hlook
    refine ⟨?_, ?_⟩ <;>
      simp only [delrule, hc, hr, hadmin, hne, hid, hsplit, hn, hlook, ne_eq,
        not_true_eq_false, if_false, if_true, not_false_eq_true, ite_true,
        ite_false, Bool.not_true, Bool.false_eq_true] <;>
      first
        | exact remoteFree_denyWith env cfg cache m _
        | exact sendsText_denyWith env cfg cache m _

/-- C9 witness: /delrule abc denied as invalid rule number, /delrule 99
    denied as unknown rule, both with no reddit call in the base
    configuration (whose only rule is number 3). -/
theorem C9_rule_validation_witness :
    remoteFree (delrule baseCfg baseEnv [] (msgDel "/delrule abc")).2 = true ∧
    remoteFree (delrule baseCfg baseEnv [] (msgDel "/delrule 99")).2 = true :=
  ⟨((C9_rule_validation baseCfg baseEnv [] (msgDel "/delrule abc")
      (replyWithUrls ["https://redd.it/abc"]) "abc" "abc" []
      (by decide) rfl (by decide) (by decide) (by decide) (by decide)).1
      (by decide)).1,
   ((C9_rule_validation baseCfg baseEnv [] (msgDel "/delrule 99")
      (replyWithUrls ["https://redd.it/abc"]) "abc" "99" []
      (by decide) rfl (by decide) (by decide) (by decide) (by decide)).2 99
      (by decide) (by decide)).1⟩

/-- C10 (confirmed): in post-text, an empty stripped title argument and a
    too-short one (length 1 to 5) are rejected with two distinct denial
    messages and no submission is created; length at least 6 leads to a
    submission, so the boundary sits at 6 (length 4 rejected, length 6
    accepted in the witness). -/
theorem C10_title_length (cfg : Config) (env : Env) (cache : AdminCache)
    (m : TgMessage) (r : ReplyMsg) (t : String)
    (hc : m.chat_id = cfg.authorized_group_id)
    (hr : m.reply_to = some r)
    (hadmin : is_sender_admin env.memberStatus m.chat_id m.from_user.id = true)
    (ht : t = pyStrip (pyReplace m.text_markdown "/posttext" "")) :
    (t.length = 0 →
      (posttext cfg env cache m).2.all (fun a => !a.isSubmit) = true ∧
      sendsText (posttext cfg env cache m).2
        ("Utilizzando il comando, aggiungi " ++
         "un titolo al post:\n/posttext <titolo>") = true) ∧
    (1 ≤ t.length → t.length < 6 →
      (posttext cfg env cache m).2.all (fun a => !a.isSubmit) = true ∧
      sendsText (posttext cfg env cache m).2
        "Serve un titolo più lungo! Riprova" = true) ∧
    (6 ≤ t.length →
      (posttext cfg env cache m).2.any Action.isSubmit = true) ∧
    ("Utilizzando il comando, aggiungi " ++ "un titolo al post:\n/posttext <titolo>" ≠
      "Serve un titolo più lungo! Riprova") := by
  rw [hc] at hadmin
  subst ht
  refine ⟨?_, ?_, ?_, by decide⟩
  · intro h0
    have h1 : (pyStrip (pyReplace m.text_markdown "/posttext" "")).length < 1 := by
      omega
    refine ⟨?_, ?_⟩ <;>
      simp only [posttext, hc, hr, hadmin, h1, ne_eq, not_true_eq_false, if_false,
        if_true, not_false_eq_true, ite_true, ite_false, Bool.not_true,
        Bool.false_eq_true] <;>
      first
        | exact noSubmit_denyWith env cfg cache m _
        | exact sendsText_denyWith env cfg cache m _
  · intro hge hlt
    have h1 : ¬ (pyStrip (pyReplace m.text_markdown "/posttext" "")).length < 1 := by
      omega
    refine ⟨?_, ?_⟩ <;>
      simp only [posttext, hc, hr, hadmin, h1, hlt, ne_eq, not_true_eq_false,
        if_false, if_true, not_false_eq_true, ite_true, ite_false, Bool.not_true,
        Bool.false_eq_true] <;>
      first
        | exact noSubmit_denyWith env cfg cache m _
        | exact sendsText_denyWith env cfg cache m _
  · intro hge
    have h1 : ¬ (pyStrip (pyReplace m.text_markdown "/posttext" "")).length < 1 := by
      omega
    have h2 : ¬ (pyStrip (pyReplace m.text_markdown "/posttext" "")).length < 6 := by
      omega
    simp only [posttext, hc, hr, hadmin, h1, h2, ne_eq, not_true_eq_false, if_false,
      if_true, not_false_eq_true, ite_true, ite_false, Bool.not_true,
      Bool.false_eq_true, List.any_cons, Action.isSubmit, Bool.true_or]
    simp [Action.isSubmit]

/-- C10 witness: title argument of length 4 is rejected without a
    submission, title argument of length 6 produces one. -/
theorem C10_title_length_witness :
    (posttext baseCfg baseEnv [] (msgWith "/posttext abcd" [])).2.all
      (fun a => !a.isSubmit) = true ∧
    (posttext baseCfg baseEnv [] (msgWith "/posttext abcdef" [])).2.any
      Action.isSubmit = true :=
  ⟨((C10_title_length baseCfg baseEnv [] (msgWith "/posttext abcd" [])
      (replyWithUrls []) "abcd" (by decide) rfl (by decide) (by decide)).2.1
      (by decide) (by decide)).1,
   (C10_title_length baseCfg baseEnv [] (msgWith "/posttext abcdef" [])
      (replyWithUrls []) "abcdef" (by decide) rfl (by decide) (by decide)).2.2.1
      (by decide)⟩

end Marvin
